import Mathlib

/-!
Shallow embedding of the session/credential core of the client:
- `src/frontend/lib/api.ts` (both variants of the `post` helper, `API_BASE`,
  the `login` wrapper),
- `src/context/AuthContext.tsx` (`AuthProvider`, `login`, `useAuth`, the
  localStorage-backed store),
- the protected pages `DashboardPage` and `DeepDivePage`.

JavaScript values of type `string | null | undefined` are modelled as
`Option String` (`none` covers both `null` and `undefined`). JavaScript
truthiness of such a value (false for `null`, `undefined` and the empty
string) and the `x || y` operator are made explicit.
-/

namespace AuthClient

/-- JS truthiness of a `string | null | undefined` value: `null`, `undefined`
and the empty string are falsy, every other string is truthy. -/
def jsTruthy : Option String → Bool
  | none => false
  | some s => !(s == "")

/-- The JS expression `v || fallback` on a `string | undefined` value:
yields `fallback` when `v` is absent or the empty string. -/
def jsOr : Option String → String → String
  | none, fallback => fallback
  | some s, fallback => if s == "" then fallback else s

/-- JS string coercion of a `string | undefined` value, as performed by
template literals and by `localStorage.setItem`: `undefined` becomes the
string "undefined". -/
def jsStringCoerce : Option String → String
  | none => "undefined"
  | some s => s

/-- Upper-case hexadecimal digit, used by percent-encoding. -/
def hexDigitUpper (n : Nat) : Char :=
  if n < 10 then Char.ofNat (48 + n) else Char.ofNat (55 + n)

/-- Lower-case hexadecimal digit, used by JSON control-character escapes. -/
def hexDigitLower (n : Nat) : Char :=
  if n < 10 then Char.ofNat (48 + n) else Char.ofNat (87 + n)

/-- UTF-8 byte sequence of one character, each byte as a `Nat` below 256. -/
def utf8Bytes (c : Char) : List Nat :=
  let n := c.toNat
  if n < 128 then [n]
  else if n < 2048 then [192 + n / 64, 128 + n % 64]
  else if n < 65536 then [224 + n / 4096, 128 + (n / 64) % 64, 128 + n % 64]
  else [240 + n / 262144, 128 + (n / 4096) % 64, 128 + (n / 64) % 64, 128 + n % 64]

/-- Characters the `application/x-www-form-urlencoded` serializer leaves
unescaped (the set used by `URLSearchParams`): ASCII alphanumerics and
`*`, `-`, `.`, `_`. -/
def urlUnreserved (c : Char) : Bool :=
  c.isAlphanum || c == '*' || c == '-' || c == '.' || c == '_'

/-- Percent-encode one byte as `%XX` with upper-case hex. -/
def percentEncodeByte (b : Nat) : String :=
  String.mk ['%', hexDigitUpper (b / 16), hexDigitUpper (b % 16)]

/-- `URLSearchParams` encoding of a single character: space becomes `+`,
unreserved characters pass through, everything else is percent-encoded
byte by byte (UTF-8). -/
def urlEncodeChar (c : Char) : String :=
  if c == ' ' then "+"
  else if urlUnreserved c then String.singleton c
  else String.join ((utf8Bytes c).map percentEncodeByte)

/-- `URLSearchParams` encoding of a string. -/
def urlEncodeComponent (s : String) : String :=
  String.join (s.data.map urlEncodeChar)

/-- `new URLSearchParams(body).toString()`: each pair serialized as
`key=value` with both sides encoded, pairs joined by `&`. -/
def urlEncodeParams (ps : List (String × String)) : String :=
  String.intercalate "&"
    (ps.map (fun p => urlEncodeComponent p.1 ++ "=" ++ urlEncodeComponent p.2))

/-- `JSON.stringify` escaping of a single character inside a string literal. -/
def jsonEscapeChar (c : Char) : String :=
  if c == '"' then "\\\""
  else if c == '\\' then "\\\\"
  else if c == '\n' then "\\n"
  else if c == '\t' then "\\t"
  else if c == '\r' then "\\r"
  else if c.toNat == 8 then "\\b"
  else if c.toNat == 12 then "\\f"
  else if c.toNat < 32 then
    "\\u00" ++ String.mk [hexDigitLower (c.toNat / 16), hexDigitLower (c.toNat % 16)]
  else String.singleton c

/-- `JSON.stringify` of one string value. -/
def jsonQuote (s : String) : String :=
  "\"" ++ String.join (s.data.map jsonEscapeChar) ++ "\""

/-- `JSON.stringify` of a flat object whose values are strings, fields in
insertion order. -/
def jsonStringifyPairs (ps : List (String × String)) : String :=
  "\x7b" ++ String.intercalate ","
    (ps.map (fun p => jsonQuote p.1 ++ ":" ++ jsonQuote p.2)) ++ "\x7d"

/-! ## Transport: `src/frontend/lib/api.ts` -/

/-- `const API_BASE = process.env.NEXT_PUBLIC_API_BASE_URL || "http://127.0.0.1:8000"`.
The argument is the environment-provided value, `none` when the variable is
unset. -/
def API_BASE (env : Option String) : String :=
  jsOr env "http://127.0.0.1:8000"

/-- The `options` argument of the `post` helper: `{ form?: boolean; token?: string }`. -/
structure PostOptions where
  form : Bool := false
  token : Option String := none
deriving Repr, DecidableEq

/-- An outbound HTTP request as the code assembles it: URL, method, the
`Content-Type` header, the optional `Authorization` header, and the body. -/
structure Request where
  url : String
  method : String
  contentType : String
  authorization : Option String := none
  body : String
deriving Repr, DecidableEq

/-- The request assembled by `post(path, body, options)` in
`src/frontend/lib/api.ts` (both file variants build it identically):
`Content-Type` and body serialization are selected by `options.form`, a
bearer header is attached when `options.token` is set, and the URL is
`API_BASE + path`. -/
def postRequest (env : Option String) (path : String)
    (body : List (String × String)) (opts : PostOptions) : Request :=
  { url := API_BASE env ++ path
    method := "POST"
    contentType :=
      if opts.form then "application/x-www-form-urlencoded" else "application/json"
    authorization := opts.token.map (fun t => "Bearer " ++ t)
    body := if opts.form then urlEncodeParams body else jsonStringifyPairs body }

/-- A transport-level response: `ok` is the success flag of the status, and
`text` the raw response body (whose parse `res.json()` returns on the paths
the claims exercise). -/
structure HttpResponse where
  ok : Bool
  text : String
deriving Repr, DecidableEq

/-- Response handling of the first `post` variant (api.ts lines 10-34):
`if (!res.ok) throw new Error(await res.text()); return res.json();`.
The success value stands for the parsed body of `text`. -/
def postHandle (res : HttpResponse) : Except String String :=
  if res.ok then Except.ok res.text else Except.error res.text

/-- Response handling of the second `post` variant (api.ts lines 68-94):
no status check at all, `return res.json();` unconditionally. -/
def postHandleV2 (res : HttpResponse) : Except String String :=
  Except.ok res.text

/-- The request issued by the `login(username, password)` wrapper in
`src/frontend/lib/api.ts`: `post("/auth/login", grant_type/username/password,
form: true)`. -/
def apiLoginRequest (env : Option String) (u p : String) : Request :=
  postRequest env "/auth/login"
    [("grant_type", "password"), ("username", u), ("password", p)]
    { form := true, token := none }

/-! ## Session Context: `src/context/AuthContext.tsx` -/

/-- Session state: the reactive `token` (React state, `null` initially) and
the durable localStorage slot keyed "token" (`none` when the key is absent). -/
structure SessionState where
  token : Option String
  storage : Option String
deriving Repr, DecidableEq

/-- The derived flag the provider exposes: `isAuthenticated: Boolean(token)`. -/
def isAuthenticated (s : SessionState) : Bool :=
  jsTruthy s.token

/-- The response to the login `fetch`, with the status flag and the two body
fields the code reads (`access_token` on success, `detail` on failure),
`none` when the field is absent from the parsed body. -/
structure LoginResponse where
  ok : Bool
  access_token : Option String
  detail : Option String
deriving Repr, DecidableEq

/-- What one `login` call produced: the session state afterwards, the
navigation destinations pushed (in order), and the rejection message when
the promise rejected. -/
structure LoginOutcome where
  state : SessionState
  nav : List String
  error : Option String
deriving Repr, DecidableEq

/-- `login(email, password)` of `AuthContext.tsx`, as a function of the state
before the call and the transport response. On `res.ok` it runs
`localStorage.setItem("token", access_token)` (JS string coercion when the
field is absent), `setToken(access_token)`, `router.push("/dashboard")`; on
failure it throws `new Error(err.detail || "Login failed")` before touching
any state. -/
def login (s : SessionState) (resp : LoginResponse) : LoginOutcome :=
  if resp.ok then
    { state :=
        { token := resp.access_token
          storage := some (jsStringCoerce resp.access_token) }
      nav := ["/dashboard"]
      error := none }
  else
    { state := s
      nav := []
      error := some (jsOr resp.detail "Login failed") }

/-- The request `login` of `AuthContext.tsx` assembles: a POST to
`NEXT_PUBLIC_API_URL + "/login"` (template-literal coercion when the
variable is unset, no fallback) with `Content-Type: application/json` and
body `JSON.stringify(\x7b email, password \x7d)`. -/
def loginRequest (env : Option String) (email password : String) : Request :=
  { url := jsStringCoerce env ++ "/login"
    method := "POST"
    contentType := "application/json"
    authorization := none
    body := jsonStringifyPairs [("email", email), ("password", password)] }

/-- `localStorage.setItem("token", c)`: the durable slot after a set. -/
def storeSet (c : String) : Option String :=
  some c

/-- The initialization effect of `AuthProvider`, run once at mount against
the durable slot: `const saved = localStorage.getItem("token"); if (saved)
setToken(saved)`; the token was initialized to `null` by `useState`. -/
def storeInit (slot : Option String) : Option String :=
  if jsTruthy slot then slot else none

/-- The data fields of the value `AuthProvider` supplies to the context
(the `login`/`logout` function members are modelled separately). -/
structure AuthContextValue where
  isAuthenticated : Bool
  token : Option String
deriving Repr, DecidableEq

/-- The context value built by `AuthProvider` from the current token:
`isAuthenticated: Boolean(token), token`. -/
def providerValue (token : Option String) : AuthContextValue :=
  { isAuthenticated := jsTruthy token, token := token }

/-- `useAuth()`: reads the context (`none` when no `AuthProvider` is above
the caller, since the context default is `undefined`) and throws when it is
absent. -/
def useAuth (ctx : Option AuthContextValue) : Except String AuthContextValue :=
  match ctx with
  | none => Except.error "useAuth must be used inside AuthProvider"
  | some c => Except.ok c

/-! ## Protected pages -/

/-- One evaluation of a page component: the navigation destinations pushed
by its effects and the content it returned (`none` models `return null`). -/
structure PageEval where
  nav : List String
  rendered : Option String
deriving Repr, DecidableEq

/-- `DashboardPage` (src/unnamed/part_003): the effect pushes `/login` when
the token is falsy, but the component body returns its markup
unconditionally - there is no early `return null`. -/
def dashboardPage (token : Option String) : PageEval :=
  { nav := if jsTruthy token then [] else ["/login"]
    rendered := some "Welcome to your Dashboard" }

/-- `DeepDivePage` (src/frontend/app/deep_dive/page.tsx): the effect pushes
`/login` when the token is falsy, and `if (!token) return null` blocks
rendering. -/
def deepDivePage (token : Option String) : PageEval :=
  { nav := if jsTruthy token then [] else ["/login"]
    rendered := if jsTruthy token then some "Deep Dive" else none }

/-- The URL of the pending-users fetch in `AdminPage` (src/unnamed/part_004):
written out literally in the call, not built from `API_BASE`. -/
def adminPendingUrl : String :=
  "http://127.0.0.1:8000/admin/users/pending"

/-! ## Claims -/

/-- Claim C1, counterexample: a successful response whose `access_token` is
the empty string. The token is stored and the navigation fires, but
`Boolean("")` is false, so `isAuthenticated` is false, contradicting the
claim as stated. -/
theorem login_empty_token_cex :
    isAuthenticated
        (login ⟨none, none⟩
          { ok := true, access_token := some "", detail := none }).state = false ∧
    (login ⟨none, none⟩
        { ok := true, access_token := some "", detail := none }).state.storage
      = some "" ∧
    (login ⟨none, none⟩
        { ok := true, access_token := some "", detail := none }).nav
      = ["/dashboard"] := by
  decide

/-- Claim C1 (amended): when the successful response carries a non-empty
`access_token` value t, the completed login leaves `isAuthenticated` true,
the durable slot holding t, and exactly one navigation, to `/dashboard`. -/
theorem login_success_amended (s : SessionState) (resp : LoginResponse)
    (t : String) (hok : resp.ok = true) (htok : resp.access_token = some t)
    (hne : t ≠ "") :
    isAuthenticated (login s resp).state = true ∧
    (login s resp).state.storage = some t ∧
    (login s resp).nav = ["/dashboard"] := by
  simp [login, hok, htok, isAuthenticated, jsTruthy, jsStringCoerce, hne]

/-- Witness for `login_success_amended` at a concrete successful response. -/
theorem login_success_amended_witness :
    (true = true ∧ (some "tok123" : Option String) = some "tok123" ∧
      "tok123" ≠ "") ∧
    (isAuthenticated
        (login ⟨none, none⟩
          { ok := true, access_token := some "tok123", detail := none }).state
        = true ∧
      (login ⟨none, none⟩
          { ok := true, access_token := some "tok123", detail := none
            }).state.storage = some "tok123" ∧
      (login ⟨none, none⟩
          { ok := true, access_token := some "tok123", detail := none }).nav
        = ["/dashboard"]) :=
  ⟨⟨rfl, rfl, by decide⟩,
    login_success_amended ⟨none, none⟩
      { ok := true, access_token := some "tok123", detail := none }
      "tok123" rfl rfl (by decide)⟩

/-- Claim C2, counterexample: a failed response whose body carries
`detail` present but equal to the empty string. The code evaluates
`err.detail || "Login failed"` and rejects with the fallback, so the
rejection message does not equal the present `detail` field. -/
theorem login_empty_detail_cex :
    (login ⟨none, none⟩
        { ok := false, access_token := none, detail := some "" }).error
      = some "Login failed" ∧
    some "Login failed" ≠ (some "" : Option String) := by
  decide

/-- Claim C2 (amended): a failed login leaves the session state (hence
`isAuthenticated` and the durable slot) unchanged and pushes no navigation;
the rejection message equals the body `detail` field when it is present and
non-empty, and the generic fallback "Login failed" when it is absent or
empty. -/
theorem login_failure_amended (s : SessionState) (resp : LoginResponse)
    (h : resp.ok = false) :
    (login s resp).state = s ∧
    (login s resp).nav = [] ∧
    (login s resp).error = some
      (match resp.detail with
        | some d => if d = "" then "Login failed" else d
        | none => "Login failed") := by
  refine ⟨by simp [login, h], by simp [login, h], ?_⟩
  cases hd : resp.detail with
  | none => simp [login, h, jsOr, hd]
  | some d => by_cases he : d = "" <;> simp [login, h, jsOr, hd, he]

/-- Witness for `login_failure_amended` at a concrete failed response. -/
theorem login_failure_amended_witness :
    (false = false) ∧
    ((login ⟨none, none⟩
        { ok := false, access_token := none,
          detail := some "Invalid credentials" }).state = ⟨none, none⟩ ∧
      (login ⟨none, none⟩
        { ok := false, access_token := none,
          detail := some "Invalid credentials" }).nav = [] ∧
      (login ⟨none, none⟩
        { ok := false, access_token := none,
          detail := some "Invalid credentials" }).error
        = some (match (some "Invalid credentials" : Option String) with
            | some d => if d = "" then "Login failed" else d
            | none => "Login failed")) :=
  ⟨rfl,
    login_failure_amended ⟨none, none⟩
      { ok := false, access_token := none,
        detail := some "Invalid credentials" } rfl⟩

/-- Claim C3, counterexample: the request that `AuthContext.login` builds
for identifier "a@b.com" and secret "p" has `Content-Type:
application/json`, not key-value-form encoding, and its body is the JSON
object with fields `email`/`password`, not `username`/`password`. -/
theorem login_request_encoding_cex :
    (loginRequest (some "http://h") "a@b.com" "p").contentType
      = "application/json" ∧
    (loginRequest (some "http://h") "a@b.com" "p").contentType
      ≠ "application/x-www-form-urlencoded" ∧
    (loginRequest (some "http://h") "a@b.com" "p").body
      = "\x7b\"email\":\"a@b.com\",\"password\":\"p\"\x7d" := by
  decide

/-- Claim C3 (amended): Session Context login sends a JSON-encoded request
to `NEXT_PUBLIC_API_URL + "/login"` with payload exactly
`\x7b email: identifier, password: secret \x7d`; the api.ts `login` wrapper
instead posts key-value-form-encoded `grant_type`/`username`/`password` to
`/auth/login`. -/
theorem login_request_encoding_amended (env : Option String)
    (e p : String) :
    (loginRequest env e p).contentType = "application/json" ∧
    (loginRequest env e p).body
      = jsonStringifyPairs [("email", e), ("password", p)] ∧
    (apiLoginRequest env e p).contentType
      = "application/x-www-form-urlencoded" ∧
    (apiLoginRequest env e p).body
      = urlEncodeParams
          [("grant_type", "password"), ("username", e), ("password", p)] :=
  ⟨rfl, rfl, rfl, rfl⟩

/-- Claim C4, counterexample: the second `post` variant (api.ts lines
68-94) performs no status check, so on a non-success response carrying an
error body it returns the parsed body as a success instead of failing. -/
theorem post_nocheck_swallows_cex :
    postHandleV2
        { ok := false, text := "\x7b\"detail\":\"Invalid credentials\"\x7d" }
      = Except.ok "\x7b\"detail\":\"Invalid credentials\"\x7d" := rfl

/-- Claim C4 (amended): the `post` variant that checks the status (api.ts
lines 10-34) fails on every non-success response with an error carrying the
raw response text (the server-provided error payload, not an extracted
`detail` field), propagated to the caller; the duplicated variant at lines
68-94 returns the parsed body regardless of status. -/
theorem post_error_propagation_amended (res : HttpResponse)
    (h : res.ok = false) :
    postHandle res = Except.error res.text := by
  simp [postHandle, h]

/-- Witness for `post_error_propagation_amended` at a concrete non-success
response. -/
theorem post_error_propagation_amended_witness :
    (({ ok := false, text := "\x7b\"detail\":\"Invalid credentials\"\x7d" }
        : HttpResponse).ok = false) ∧
    postHandle
        { ok := false, text := "\x7b\"detail\":\"Invalid credentials\"\x7d" }
      = Except.error "\x7b\"detail\":\"Invalid credentials\"\x7d" :=
  ⟨rfl,
    post_error_propagation_amended
      { ok := false, text := "\x7b\"detail\":\"Invalid credentials\"\x7d" }
      rfl⟩

/-- Claim C5: the body and the `Content-Type` header are both selected by
the encoding flag, form mode URL-encodes (the example payload serializes to
`username=a%40b.com&password=p`), structured mode serializes as JSON. -/
theorem post_encoding_correct (env : Option String) (path : String)
    (body : List (String × String)) (opts : PostOptions) :
    (postRequest env path body opts).contentType
      = (if opts.form then "application/x-www-form-urlencoded"
          else "application/json") ∧
    (postRequest env path body opts).body
      = (if opts.form then urlEncodeParams body
          else jsonStringifyPairs body) ∧
    urlEncodeParams [("username", "a@b.com"), ("password", "p")]
      = "username=a%40b.com&password=p" ∧
    jsonStringifyPairs [("username", "a@b.com"), ("password", "p")]
      = "\x7b\"username\":\"a@b.com\",\"password\":\"p\"\x7d" := by
  refine ⟨rfl, rfl, by decide, by decide⟩

/-- Claim C6: evaluation at the failing input. With no token,
`DashboardPage` pushes the redirect to `/login` but still returns its
markup - there is no early `return null` - while the sibling
`DeepDivePage` returns null as the claim requires. -/
theorem dashboard_renders_unauthenticated :
    (dashboardPage none).nav = ["/login"] ∧
    (dashboardPage none).rendered = some "Welcome to your Dashboard" ∧
    (deepDivePage none).nav = ["/login"] ∧
    (deepDivePage none).rendered = none ∧
    (deepDivePage (some "tok")).nav = [] ∧
    (deepDivePage (some "tok")).rendered = some "Deep Dive" := by
  decide

/-- Claim C7, counterexample: with the empty string as current credential,
the token is not null yet `isAuthenticated` (computed as `Boolean(token)`)
is false, so the flag does not equal `credential != null`. -/
theorem isAuthenticated_empty_token_cex :
    (providerValue (some "")).token ≠ none ∧
    (providerValue (some "")).isAuthenticated = false := by
  decide

/-- Claim C7 (amended): the derived flag is recomputed from the current
token and is true exactly when a non-empty credential is current:
`isAuthenticated = Boolean(token)`, false for both a null and an empty
credential. -/
theorem isAuthenticated_nonempty_amended (token : Option String) :
    ((providerValue token).isAuthenticated = true)
      ↔ (token ≠ none ∧ token ≠ some "") := by
  cases token with
  | none => simp [providerValue, jsTruthy]
  | some t => by_cases h : t = "" <;> simp [providerValue, jsTruthy, h]

/-- Claim C8, counterexample: storing the empty string and re-running the
store initialization yields no token, because `if (saved)` treats the
restored empty string as falsy. -/
theorem roundtrip_empty_credential_cex :
    storeInit (storeSet "") = none ∧
    (none : Option String) ≠ some "" := by
  decide

/-- Claim C8 (amended): for every non-empty credential c, `set(c)` followed
by the store re-initialization that reads the durable slot restores the
token c. -/
theorem roundtrip_amended (c : String) (h : c ≠ "") :
    storeInit (storeSet c) = some c := by
  simp [storeInit, storeSet, jsTruthy, h]

/-- Witness for `roundtrip_amended` at a concrete credential. -/
theorem roundtrip_amended_witness :
    "tok123" ≠ "" ∧ storeInit (storeSet "tok123") = some "tok123" :=
  ⟨by decide, roundtrip_amended "tok123" (by decide)⟩

/-- Claim C9, counterexample: with an environment-provided base URL, the
pending-users fetch of `AdminPage` still targets the hardcoded local URL,
not an endpoint under the configured base. -/
theorem admin_url_ignores_base_cex :
    adminPendingUrl
      ≠ API_BASE (some "https://api.example.com") ++ "/admin/users/pending" := by
  decide

/-- Claim C9 (amended): requests issued through the api.ts `post` helper do
target `API_BASE + path`, where `API_BASE` is the environment value with
the fixed local default when it is absent or empty; but `AuthContext.login`
builds its URL from the different variable `NEXT_PUBLIC_API_URL` with no
fallback (an unset variable yields the literal URL "undefined/login"), and
`AdminPage` hardcodes the local URL for its pending-users fetch. -/
theorem base_url_amended (env : Option String) (path : String)
    (body : List (String × String)) (opts : PostOptions) (e p : String) :
    (postRequest env path body opts).url = API_BASE env ++ path ∧
    API_BASE none = "http://127.0.0.1:8000" ∧
    API_BASE (some "") = "http://127.0.0.1:8000" ∧
    (loginRequest none e p).url = "undefined/login" ∧
    adminPendingUrl = "http://127.0.0.1:8000/admin/users/pending" :=
  ⟨rfl, rfl, rfl, rfl, rfl⟩

/-- Claim C10: `useAuth` throws the fixed error message when the context is
absent (no surrounding `AuthProvider`) and returns the context value itself
whenever one is present. -/
theorem useAuth_spec :
    useAuth none
      = Except.error "useAuth must be used inside AuthProvider" ∧
    ∀ c : AuthContextValue, useAuth (some c) = Except.ok c :=
  ⟨rfl, fun _ => rfl⟩

end AuthClient
